import Mathlib

/-!
Verification development for the Excel Mock Interviewer application
(file `app.py`): a rule-based quiz tool that grades free-text answers to
ten Excel questions by keyword matching, validates an uploaded table for
the hands-on question, and aggregates a weighted overall score together
with a report (strengths, weaknesses, review queue).

The Python source is shallowly embedded: Python strings are Lean
`String`, Python floats arising in grading are exact rationals (`Rat`;
every arithmetic operation the program performs on scores is modelled
exactly), dictionaries are association lists, and pandas dataframes are
ordered lists of named columns of cells.  Fallible steps inside the
`try` block of the tabular validator live in `Except String`.
-/

namespace ExcelInterviewer

/-! ### String helpers

Embeddings of the Python string operations used by `app.py`:
`str.lower`, `str.strip`, `str.upper`, the substring test `in`, and
the regex `re.sub(r"\s+", "", s)` which removes every whitespace
character. -/

/-- Embedding of Python `s.lower()` (ASCII case mapping). -/
def pyLower (s : String) : String := ⟨s.data.map Char.toLower⟩

/-- Embedding of Python `s.strip()`: drop leading and trailing
whitespace. -/
def pyStrip (s : String) : String :=
  ⟨((s.data.dropWhile Char.isWhitespace).reverse.dropWhile Char.isWhitespace).reverse⟩

/-- Embedding of the Python substring test `pat in hay`. -/
def pyIn (pat hay : String) : Bool := decide (pat.data <:+: hay.data)

/-- Embedding of `normalize` in `app.py`:
`re.sub(r"\s+", "", (s or "")).upper()` — remove all whitespace, then
uppercase. -/
def normalize (s : String) : String :=
  ⟨(s.data.filter (fun c => !c.isWhitespace)).map Char.toUpper⟩

/-! ### Rule-based checks

Each `check_*` function mirrors the function of the same name in
`app.py`.  Scores are exact rationals in place of Python floats; every
score the program can produce (`1.0`, `0.9`, `hits/2.0`, `hits/3.0`,
`hits/4.0`, `0.0`) is an exactly representable rational expression, and
the comparisons performed on them by the program are order comparisons
that agree between the two representations. -/

/-- Embedding of `check_sumifs`. -/
def check_sumifs (ans : String) : Rat × List String :=
  let a := normalize ans
  if pyIn "SUMIFS" a then (1, ["Uses SUMIFS"])
  else if pyIn "SUMIF" a then (9/10, ["Uses SUMIF (acceptable)"])
  else (0, ["SUMIF(S) not detected"])

/-- Embedding of `check_xlookup`. -/
def check_xlookup (ans : String) : Rat × List String :=
  let a := normalize ans
  if pyIn "XLOOKUP" a || (pyIn "INDEX" a && pyIn "MATCH" a) then
    (1, ["Uses XLOOKUP / INDEX+MATCH"])
  else (0, ["XLOOKUP / INDEX+MATCH not detected"])

/-- Embedding of `check_countif`. -/
def check_countif (ans : String) : Rat × List String :=
  let a := normalize ans
  if pyIn "COUNTIF" a || pyIn "COUNTA" a then (1, ["Uses COUNTIF/COUNTA"])
  else (0, ["COUNTIF/COUNTA not detected"])

/-- Embedding of `check_average`. -/
def check_average (ans : String) : Rat × List String :=
  let a := normalize ans
  if pyIn "AVERAGE" a || pyIn "AVERAGEIF" a then (1, ["Uses AVERAGE/AverageIf"])
  else (0, ["AVERAGE not detected"])

/-- Embedding of `check_year`. -/
def check_year (ans : String) : Rat × List String :=
  let a := normalize ans
  if pyIn "YEAR(" a then (1, ["Uses YEAR()"])
  else (0, ["YEAR() not detected"])

/-- Embedding of `check_div0`.  `hits` counts the matched keyword
groups; the score is `min(1.0, hits/2.0)`. -/
def check_div0 (ans : String) : Rat × List String :=
  let t := pyLower ans
  let hits : Nat :=
    (if pyIn "zero" t || pyIn "divide" t then 1 else 0) +
    (if pyIn "blank" t || pyIn "empty" t then 1 else 0)
  (min 1 ((hits : Rat) / 2), ["matched " ++ toString hits ++ " causes"])

/-- Embedding of `check_sum_zero`; the score is `min(1.0, hits/3.0)`. -/
def check_sum_zero (ans : String) : Rat × List String :=
  let t := pyLower ans
  let hits : Nat :=
    (if pyIn "text" t then 1 else 0) +
    (if pyIn "format" t || pyIn "formatted" t then 1 else 0) +
    (if pyIn "hidden" t || pyIn "space" t then 1 else 0)
  (min 1 ((hits : Rat) / 3), ["matched " ++ toString hits ++ " reasons"])

/-- Embedding of `check_pivot_steps`; `hits` counts how many of the
eight keywords occur, the score is `min(1.0, hits/4.0)`. -/
def check_pivot_steps (ans : String) : Rat × List String :=
  let t := pyLower ans
  let hits : Nat :=
    (["pivot", "chart", "rows", "columns", "values", "month", "sum", "line"].filter
      (fun w => pyIn w t)).length
  (min 1 ((hits : Rat) / 4), ["matched " ++ toString hits ++ " chart/pivot keywords"])

/-! ### Question bank -/

/-- Embedding of one record of the `QUESTIONS` list in `app.py`. -/
structure Question where
  id : String
  qtype : String
  prompt : String
  example_answer : String
  weight : Nat
deriving DecidableEq

/-- Embedding of the 10-question bank `QUESTIONS` in `app.py`. -/
def QUESTIONS : List Question :=
  [⟨"q1", "objective",
    "Write an Excel formula that returns the SUM of column B only for rows where column A equals \x27Sales\x27.",
    "=SUMIFS(B:B, A:A, \"Sales\")", 2⟩,
   ⟨"q2", "objective",
    "Give a formula to lookup value in C2 from a table where key is in column A, robust to column re-ordering.",
    "XLOOKUP(C2, A:A, B:B)", 2⟩,
   ⟨"q3", "objective",
    "Write an Excel formula to count how many cells in range D2:D100 contain text.",
    "=COUNTIF(D2:D100,\"*\")", 2⟩,
   ⟨"q4", "objective",
    "Write a formula to calculate the average of numbers in column E, ignoring blanks.",
    "=AVERAGE(E:E)", 2⟩,
   ⟨"q5", "objective",
    "Write a formula that extracts the year from a date in cell F2.",
    "=YEAR(F2)", 1⟩,
   ⟨"q6", "debug",
    "You get #DIV/0! error in Excel. What are two common causes?",
    "Dividing by zero; blank denominator.", 2⟩,
   ⟨"q7", "debug",
    "Your SUM formula =SUM(A1:A10) is returning 0 even though numbers are visible. List likely causes.",
    "Cells formatted as text; hidden characters/spaces; not actually numeric values.", 3⟩,
   ⟨"q8", "concept",
    "Explain difference between Absolute ($A$1) and Relative (A1) references in formulas.",
    "Absolute stays fixed when copied; Relative shifts with cell position.", 2⟩,
   ⟨"q9", "concept",
    "Explain difference between VLOOKUP and XLOOKUP in Excel.",
    "XLOOKUP is more flexible, can search both directions, no need for column index, handles errors.", 3⟩,
   ⟨"q10", "hands_on",
    "Upload a CSV/XLSX with Date and Sales columns. How would you create a chart to show monthly sales trend?",
    "Insert → Line chart, set X=Month(Date), Y=Sum(Sales).", 4⟩]

/-- Embedding of `grade` in `app.py`: dispatch on the question id. -/
def grade (q : Question) (answer : String) : Rat × List String :=
  if q.id = "q1" then check_sumifs answer
  else if q.id = "q2" then check_xlookup answer
  else if q.id = "q3" then check_countif answer
  else if q.id = "q4" then check_average answer
  else if q.id = "q5" then check_year answer
  else if q.id = "q6" then check_div0 answer
  else if q.id = "q7" then check_sum_zero answer
  else if q.id = "q8" then
    let t := pyLower answer
    if (["absolute", "relative", "$a$1", "a1"].any (fun w => pyIn w t)) then
      (1, ["Explains absolute vs relative"])
    else (0, ["Does not explain absolute vs relative"])
  else if q.id = "q9" then
    let t := pyLower answer
    if (["xlookup", "vlookup", "index", "match", "both directions"].any (fun w => pyIn w t)) then
      (1, ["Mentions key differences"])
    else (0, ["Does not mention differences"])
  else if q.id = "q10" then check_pivot_steps answer
  else (0, ["no rule"])

/-! ### Confidence classifier -/

/-- Embedding of `confidence_label` in `app.py`. -/
def confidence_label (score : Rat) : String :=
  if score ≥ 0.8 then "High"
  else if score ≥ 0.4 then "Medium"
  else "Low"

/-! ### Feedback templater -/

/-- Embedding of `feedback_from_notes` in `app.py`: scan the lowercased
join of the notes for known substrings, collect the matching tips in
program order, fall back to a generic tip when nothing matched, and
join the first two tips. -/
def feedback_from_notes (qid : String) (notes : List String) : String :=
  let joined := pyLower (String.intercalate " " notes)
  let tips : List String :=
    (if pyIn "sumifs" joined then
      ["Good: you used SUMIFS. Tip: consider using Table references for robustness."] else []) ++
    (if pyIn "sumif" joined && !pyIn "sumifs" joined then
      ["Partial: SUMIF works for single conditions; SUMIFS handles multiple conditions."] else []) ++
    (if pyIn "xlookup" joined || pyIn "index" joined then
      ["Good: using XLOOKUP/INDEX+MATCH is robust to column re-ordering."] else []) ++
    (if pyIn "countif" joined || pyIn "counta" joined then
      ["COUNTIF / COUNTA are good for counting text/non-empty cells."] else []) ++
    (if pyIn "average" joined then
      ["AVERAGE ignores blanks; AVERAGEIF can help with conditions."] else []) ++
    (if pyIn "year" joined then
      ["YEAR() extracts year from dates — useful for grouping by year."] else []) ++
    (if pyIn "div0" joined || pyIn "divide" joined then
      ["Check denominators and handle zero or blank cases (IFERROR or conditional checks)."] else []) ++
    (if pyIn "pivot" joined || pyIn "chart" joined then
      ["Good: use PivotTables or Group by Month to summarize time-series data."] else [])
  let tips :=
    if tips.isEmpty then
      if qid.startsWith "q1" || qid.startsWith "q2" || qid.startsWith "q3" ||
         qid.startsWith "q4" || qid.startsWith "q5" then
        ["If unsure, include the exact formula syntax (e.g., =SUMIFS(...))."]
      else
        ["Try to mention concrete functions or steps (keywords help the grader)."]
    else tips
  String.intercalate " " (tips.take 2)

/-! ### Tabular validator (hands-on pivot validation)

A pandas dataframe is embedded as an ordered list of named columns of
cells.  `pd.read_csv` / `pd.read_excel` always produce string column
names (a header row is required), so column names are `String`; names
may still be duplicated, because `pivot_validate_dataframe` accepts any
dataframe.  A cell is already a typed value: `pd.to_datetime(...,
errors="coerce")` succeeds exactly on date cells and
`pd.to_numeric(..., errors="coerce")` exactly on numeric cells, every
other cell coercing to missing (`None`); this abstracts which concrete
strings pandas can parse, which no claim depends on.

The body of the Python `try:` block is embedded in `Except String`:
selecting a duplicated column name returns a two-column sub-dataframe
on which `pd.to_datetime` / `pd.to_numeric` raise, which is the
fallible step inside the block. -/

/-- A cell of the embedded dataframe: a date (year, month, day), a
number, arbitrary text, or an empty cell. -/
inductive Cell where
  | date (y m d : Nat)
  | num (x : Rat)
  | str (s : String)
  | empty
deriving DecidableEq

/-- The embedded dataframe: ordered named columns. -/
structure DataFrame where
  cols : List (String × List Cell)
deriving DecidableEq

/-- Embedding of `pd.to_datetime(cell, errors="coerce")` followed by
`dt.to_period("M")`: the (year, month) of a date cell, missing
otherwise. -/
def to_datetime_month (c : Cell) : Option (Nat × Nat) :=
  match c with
  | .date y m _ => some (y, m)
  | _ => none

/-- Embedding of `pd.to_numeric(cell, errors="coerce")`. -/
def to_numeric_cell (c : Cell) : Option Rat :=
  match c with
  | .num x => some x
  | _ => none

/-- Embedding of the column-discovery loop of
`pivot_validate_dataframe` (lines 190-195): for every column in order,
if its stripped lowercased name contains "date" record it as the date
column, and if it contains "sales", "amount" or "revenue" record it as
the sales column.  There is no early exit, so each later match
overwrites the earlier one. -/
def findCols (names : List String) : Option String × Option String :=
  names.foldl
    (fun acc c =>
      let lc := pyLower (pyStrip c)
      let acc := if pyIn "date" lc then (some c, acc.2) else acc
      if pyIn "sales" lc || pyIn "amount" lc || pyIn "revenue" lc then (acc.1, some c)
      else acc)
    (none, none)

/-- Embedding of the column selection `df2[name]` as consumed by
`pd.to_datetime` / `pd.to_numeric`: when exactly one column carries the
name its cells are returned; when several do, pandas hands the coercion
function a two-column dataframe and it raises, which surfaces here as
an `Except.error` carrying the exception text. -/
def getCol (df : DataFrame) (name : String) : Except String (List Cell) :=
  match df.cols.filter (fun p => p.1 == name) with
  | [c] => Except.ok c.2
  | [] => Except.error ("column not found: " ++ name)
  | _ => Except.error ("cannot coerce a DataFrame of duplicated column " ++ name)

/-- Rendering of an optional column name inside the Python f-string
`f"Missing columns: date_col={date_col}, sales_col={sales_col}"`. -/
def optName (o : Option String) : String :=
  match o with
  | none => "None"
  | some s => s

/-- Chronological order on (year, month) pairs. -/
def monthLE (a b : Nat × Nat) : Bool :=
  decide (a.1 < b.1 ∨ (a.1 = b.1 ∧ a.2 ≤ b.2))

/-- Insertion into a chronologically sorted month list. -/
def insertMonth (x : Nat × Nat) : List (Nat × Nat) → List (Nat × Nat)
  | [] => [x]
  | y :: ys => if monthLE x y then x :: y :: ys else y :: insertMonth x ys

/-- Chronological insertion sort of month keys, embedding the
combination of the default `groupby` key ordering and
`sort_values("month")`. -/
def sortMonths : List (Nat × Nat) → List (Nat × Nat)
  | [] => []
  | x :: xs => insertMonth x (sortMonths xs)

/-- The monthly aggregate: (month, summed sales) rows. -/
abbrev Monthly := List ((Nat × Nat) × Rat)

/-- Embedding of the body of the `try:` block of
`pivot_validate_dataframe` (lines 185-212).  Fallible steps return
`Except.error` with the exception text. -/
def pivot_body (df : DataFrame) :
    Except String (Bool × String × Option Monthly) := do
  let names := df.cols.map (fun p => p.1)
  let found := findCols names
  match found.1, found.2 with
  | some date_col, some sales_col => do
      let dcells ← getCol df date_col
      let dates := dcells.map to_datetime_month
      if dates.all Option.isNone then
        return (false, "All date values could not be parsed.", none)
      else
        let scells ← getCol df sales_col
        let sales := scells.map to_numeric_cell
        let rows := dates.zip sales
        let keys := sortMonths (rows.filterMap (fun r => r.1)).dedup
        let monthly : Monthly := keys.map (fun k =>
          (k, ((rows.filter (fun r => r.1 == some k)).map (fun r => r.2.getD 0)).sum))
        let sample :=
          match monthly with
          | [] => "N/A"
          | r :: _ => toString r.2
        return (true,
          "Pivot OK — found " ++ toString monthly.length ++
            " months; sample total for first month: " ++ sample,
          some monthly)
  | _, _ =>
      return (false,
        "Missing columns: date_col=" ++ optName found.1 ++
          ", sales_col=" ++ optName found.2, none)

/-- Embedding of `pivot_validate_dataframe` in `app.py`: run the body
and catch any exception, converting it to `ok = false` with the
exception text in the note. -/
def pivot_validate_dataframe (df : DataFrame) :
    Bool × String × Option Monthly :=
  match pivot_body df with
  | Except.ok r => r
  | Except.error e => (false, "Pivot validation error: " ++ e, none)

/-! ### Session state and report

The per-session Streamlit state that the report and the overall score
read: the three dictionaries `responses`, `scores` and `notes`, keyed
by question id, embedded as association lists. -/

/-- The session dictionaries of `st.session_state` consumed by the
report: `responses`, `scores`, `notes`. -/
structure Session where
  responses : List (String × String)
  scores : List (String × Rat)
  notes : List (String × List String)

/-- One element of the `review_queue` list: the dict
`{"question": ..., "answer": ..., "notes": ...}`. -/
structure ReviewEntry where
  question : String
  answer : String
  notes : List String
deriving DecidableEq

/-- Embedding of the report loop (lines 389-419 of `app.py`): walk the
question bank in order and, for every question with a recorded
response, append its prompt to `strengths` when `score >= 0.8`, its
(prompt, feedback) pair to `weaknesses` when `score <= 0.4`, and a
`ReviewEntry` to `review_queue` when `score < 0.4`. -/
def report_lists (s : Session) : List Question → List String × List (String × String) × List ReviewEntry
  | [] => ([], [], [])
  | q :: qs =>
    let rest := report_lists s qs
    if (s.responses.lookup q.id).isSome then
      let ans := (s.responses.lookup q.id).getD ""
      let score := (s.scores.lookup q.id).getD 0
      let nts := (s.notes.lookup q.id).getD []
      let friendly := feedback_from_notes q.id nts
      ((if score ≥ 0.8 then [q.prompt] else []) ++ rest.1,
       (if score ≤ 0.4 then [(q.prompt, friendly)] else []) ++ rest.2.1,
       (if score < 0.4 then [ReviewEntry.mk q.prompt ans nts] else []) ++ rest.2.2)
    else rest

/-- The `strengths` list built by the report loop. -/
def strengths (s : Session) : List String := (report_lists s QUESTIONS).1

/-- The `weaknesses` list built by the report loop. -/
def weaknesses (s : Session) : List (String × String) := (report_lists s QUESTIONS).2.1

/-- The `review_queue` list built by the report loop. -/
def review_queue (s : Session) : List ReviewEntry := (report_lists s QUESTIONS).2.2

/-! ### Overall score

Both computations of the overall score in `app.py` (lines 247-250 for
the header badge and 454-456 for the final report and transcript) are
the same expression:
`round(100 * (sum(scores.get(q.id, 0.0) * q.weight for q in QUESTIONS)
/ sum(q.weight for q in QUESTIONS)), 1)` guarded by
`if st.session_state.responses`.  Python `round(x, 1)` on the exact
rational model is rounding to the nearest tenth with ties to even. -/

/-- Embedding of `total_w = sum(q["weight"] for q in QUESTIONS)`. -/
def total_weight : Nat := (QUESTIONS.map (fun q => q.weight)).sum

/-- Embedding of
`sum(st.session_state.scores.get(q["id"], 0.0) * q["weight"] for q in QUESTIONS)`. -/
def score_sum (scores : List (String × Rat)) : Rat :=
  (QUESTIONS.map (fun q => (scores.lookup q.id).getD 0 * (q.weight : Rat))).sum

/-- Round a rational to the nearest integer, ties to even. -/
def roundHalfEven (x : Rat) : Int :=
  let f := x.floor
  let r := x - (f : Rat)
  if r < 1/2 then f
  else if 1/2 < r then f + 1
  else if f % 2 = 0 then f else f + 1

/-- Embedding of Python `round(x, 1)`. -/
def pyRound1 (x : Rat) : Rat := (roundHalfEven (10 * x) : Rat) / 10

/-- Embedding of
`overall = round(100 * (score_sum / total_w), 1) if total_w else 0.0`. -/
def overallOf (scores : List (String × Rat)) : Rat :=
  if total_weight ≠ 0 then pyRound1 (100 * (score_sum scores / (total_weight : Rat)))
  else 0

/-- The overall score as displayed and exported: computed only when at
least one response is recorded, otherwise `0.0`. -/
def displayedOverall (s : Session) : Rat :=
  if s.responses.isEmpty then 0 else overallOf s.scores

/-- Definition following the words of the spec (claim C1), for
comparison with the implementation: overall score =
100 × (Σ score_i × weight_i) / (Σ weight_i) where both sums range only
over the questions with a recorded grade. -/
def specOverall (scores : List (String × Rat)) : Rat :=
  let answered := QUESTIONS.filter (fun q => (scores.lookup q.id).isSome)
  100 * (((answered.map (fun q => (scores.lookup q.id).getD 0 * (q.weight : Rat))).sum) /
    ((answered.map (fun q => (q.weight : Rat))).sum))

/-! ### Helper lemmas -/

lemma ratFloor_eq_intFloor (q : Rat) : q.floor = ⌊q⌋ :=
  (Rat.floor_def' q).trans Rat.floor_def.symm

lemma char_toLower_ws {c : Char} (h : c.isWhitespace = true) :
    c.toLower.isWhitespace = true := by
  simp only [Char.isWhitespace] at h
  rcases (by simpa using h : ((c = ' ' ∨ c = '\t') ∨ c = '\r') ∨ c = '\n') with
    ((h | h) | h) | h <;> subst h <;> decide

lemma pyIn_eq_true_iff {p h : String} : pyIn p h = true ↔ p.data <:+: h.data := by
  simp [pyIn]

lemma pyIn_false_of_ws {pat hay : String}
    (hws : ∀ c ∈ hay.data, c.isWhitespace = true)
    (hpat : pat.data.any (fun c => !c.isWhitespace) = true) :
    pyIn pat hay = false := by
  rw [pyIn, decide_eq_false_iff_not]
  intro hinf
  obtain ⟨c, hc, hcw⟩ := List.any_eq_true.mp hpat
  have hcw2 : c.isWhitespace = false := by simpa using hcw
  have := hws c (hinf.subset hc)
  rw [this] at hcw2
  exact absurd hcw2 (by simp)

lemma pyLower_ws {ans : String} (hws : ∀ c ∈ ans.data, c.isWhitespace = true) :
    ∀ c ∈ (pyLower ans).data, c.isWhitespace = true := by
  intro c hc
  simp only [pyLower, List.mem_map] at hc
  obtain ⟨d, hd, rfl⟩ := hc
  exact char_toLower_ws (hws d hd)

lemma normalize_eq_empty {s : String} (hws : ∀ c ∈ s.data, c.isWhitespace = true) :
    normalize s = "" := by
  unfold normalize
  have hnil : s.data.filter (fun c => !c.isWhitespace) = [] := by
    rw [List.filter_eq_nil_iff]
    intro c hc
    simp [hws c hc]
  rw [hnil]
  rfl

lemma pyIn_append_left {p a : String} (h : pyIn p a = true) (b : String) :
    pyIn p (a ++ b) = true := by
  rw [pyIn_eq_true_iff] at h ⊢
  exact h.trans ⟨[], b.data, by simp⟩

lemma pyIn_append_right {p b : String} (h : pyIn p b = true) (a : String) :
    pyIn p (a ++ b) = true := by
  rw [pyIn_eq_true_iff] at h ⊢
  exact h.trans ⟨a.data, [], by simp⟩

/-! ### Claim theorems -/

/-- C4.  The confidence classifier is a pure total function of the
score with exactly the documented boundaries: High for every score
≥ 0.8, Medium for 0.4 ≤ score < 0.8, Low for score < 0.4, and on the
four boundary probes 0.79 ↦ Medium, 0.8 ↦ High, 0.39 ↦ Low,
0.4 ↦ Medium. -/
theorem confidence_label_boundaries :
    (∀ s : Rat, 0.8 ≤ s → confidence_label s = "High") ∧
    (∀ s : Rat, 0.4 ≤ s → s < 0.8 → confidence_label s = "Medium") ∧
    (∀ s : Rat, s < 0.4 → confidence_label s = "Low") ∧
    confidence_label 0.79 = "Medium" ∧ confidence_label 0.8 = "High" ∧
    confidence_label 0.39 = "Low" ∧ confidence_label 0.4 = "Medium" := by
  refine ⟨fun s h => ?_, fun s h1 h2 => ?_, fun s h => ?_, ?_, ?_, ?_, ?_⟩ <;>
    unfold confidence_label
  · rw [if_pos h]
  · rw [if_neg (by exact fun hc => absurd h2 (not_lt.mpr hc)), if_pos h1]
  · rw [if_neg (fun hc => absurd (lt_of_lt_of_le (by norm_num) hc) (not_lt.mpr h.le)),
      if_neg (not_le.mpr h)]
  · norm_num
  · norm_num
  · norm_num
  · norm_num

/-- Witness for C4 at concrete scores. -/
theorem confidence_label_boundaries_witness :
    confidence_label 1 = "High" ∧ confidence_label (1/2) = "Medium" ∧
    confidence_label (1/10) = "Low" :=
  ⟨confidence_label_boundaries.1 1 (by norm_num),
   confidence_label_boundaries.2.1 (1/2) (by norm_num) (by norm_num),
   confidence_label_boundaries.2.2.1 (1/10) (by norm_num)⟩

/-! ### Dispatch lemmas for `grade`

One lemma per question id, reducing the id comparison chain of
`grade`. -/

lemma grade_q1 (t p e : String) (w : Nat) (ans : String) :
    grade ⟨"q1", t, p, e, w⟩ ans = check_sumifs ans := rfl

lemma grade_q2 (t p e : String) (w : Nat) (ans : String) :
    grade ⟨"q2", t, p, e, w⟩ ans = check_xlookup ans := rfl

lemma grade_q3 (t p e : String) (w : Nat) (ans : String) :
    grade ⟨"q3", t, p, e, w⟩ ans = check_countif ans := rfl

lemma grade_q4 (t p e : String) (w : Nat) (ans : String) :
    grade ⟨"q4", t, p, e, w⟩ ans = check_average ans := rfl

lemma grade_q5 (t p e : String) (w : Nat) (ans : String) :
    grade ⟨"q5", t, p, e, w⟩ ans = check_year ans := rfl

lemma grade_q6 (t p e : String) (w : Nat) (ans : String) :
    grade ⟨"q6", t, p, e, w⟩ ans = check_div0 ans := rfl

lemma grade_q7 (t p e : String) (w : Nat) (ans : String) :
    grade ⟨"q7", t, p, e, w⟩ ans = check_sum_zero ans := rfl

lemma grade_q8 (t p e : String) (w : Nat) (ans : String) :
    grade ⟨"q8", t, p, e, w⟩ ans =
      (if (["absolute", "relative", "$a$1", "a1"].any
          (fun x => pyIn x (pyLower ans))) then
        (1, ["Explains absolute vs relative"])
      else (0, ["Does not explain absolute vs relative"])) := rfl

lemma grade_q9 (t p e : String) (w : Nat) (ans : String) :
    grade ⟨"q9", t, p, e, w⟩ ans =
      (if (["xlookup", "vlookup", "index", "match", "both directions"].any
          (fun x => pyIn x (pyLower ans))) then
        (1, ["Mentions key differences"])
      else (0, ["Does not mention differences"])) := rfl

lemma grade_q10 (t p e : String) (w : Nat) (ans : String) :
    grade ⟨"q10", t, p, e, w⟩ ans = check_pivot_steps ans := rfl

/-! ### Per-check score bounds -/

lemma check_sumifs_bounds (ans : String) :
    0 ≤ (check_sumifs ans).1 ∧ (check_sumifs ans).1 ≤ 1 ∧
      1 ≤ (check_sumifs ans).2.length := by
  unfold check_sumifs
  dsimp only
  split_ifs <;> norm_num

lemma check_xlookup_bounds (ans : String) :
    0 ≤ (check_xlookup ans).1 ∧ (check_xlookup ans).1 ≤ 1 ∧
      1 ≤ (check_xlookup ans).2.length := by
  unfold check_xlookup
  dsimp only
  split_ifs <;> norm_num

lemma check_countif_bounds (ans : String) :
    0 ≤ (check_countif ans).1 ∧ (check_countif ans).1 ≤ 1 ∧
      1 ≤ (check_countif ans).2.length := by
  unfold check_countif
  dsimp only
  split_ifs <;> norm_num

lemma check_average_bounds (ans : String) :
    0 ≤ (check_average ans).1 ∧ (check_average ans).1 ≤ 1 ∧
      1 ≤ (check_average ans).2.length := by
  unfold check_average
  dsimp only
  split_ifs <;> norm_num

lemma check_year_bounds (ans : String) :
    0 ≤ (check_year ans).1 ∧ (check_year ans).1 ≤ 1 ∧
      1 ≤ (check_year ans).2.length := by
  unfold check_year
  dsimp only
  split_ifs <;> norm_num

lemma check_div0_bounds (ans : String) :
    0 ≤ (check_div0 ans).1 ∧ (check_div0 ans).1 ≤ 1 ∧
      1 ≤ (check_div0 ans).2.length := by
  unfold check_div0
  dsimp only
  split_ifs <;> norm_num [min_def]

lemma check_sum_zero_bounds (ans : String) :
    0 ≤ (check_sum_zero ans).1 ∧ (check_sum_zero ans).1 ≤ 1 ∧
      1 ≤ (check_sum_zero ans).2.length := by
  unfold check_sum_zero
  dsimp only
  split_ifs <;> norm_num [min_def]

lemma check_pivot_steps_bounds (ans : String) :
    0 ≤ (check_pivot_steps ans).1 ∧ (check_pivot_steps ans).1 ≤ 1 ∧
      1 ≤ (check_pivot_steps ans).2.length := by
  unfold check_pivot_steps
  dsimp only
  exact ⟨le_min (by norm_num) (by positivity), min_le_left _ _, by simp⟩

/-- C8.  For every question of the bank and every answer, the grade is
a score in the closed interval [0, 1] together with at least one
note. -/
theorem grade_score_bounds :
    ∀ q ∈ QUESTIONS, ∀ ans : String,
      0 ≤ (grade q ans).1 ∧ (grade q ans).1 ≤ 1 ∧
        1 ≤ (grade q ans).2.length := by
  intro q hq ans
  simp only [QUESTIONS, List.mem_cons, List.not_mem_nil, or_false] at hq
  rcases hq with rfl | rfl | rfl | rfl | rfl | rfl | rfl | rfl | rfl | rfl
  · rw [grade_q1]; exact check_sumifs_bounds ans
  · rw [grade_q2]; exact check_xlookup_bounds ans
  · rw [grade_q3]; exact check_countif_bounds ans
  · rw [grade_q4]; exact check_average_bounds ans
  · rw [grade_q5]; exact check_year_bounds ans
  · rw [grade_q6]; exact check_div0_bounds ans
  · rw [grade_q7]; exact check_sum_zero_bounds ans
  · rw [grade_q8]; split_ifs <;> norm_num
  · rw [grade_q9]; split_ifs <;> norm_num
  · rw [grade_q10]; exact check_pivot_steps_bounds ans

/-- Witness for C8 at the first question of the bank and the empty
answer. -/
theorem grade_score_bounds_witness :
    0 ≤ (grade (QUESTIONS.get ⟨0, by decide⟩) "").1 ∧
      (grade (QUESTIONS.get ⟨0, by decide⟩) "").1 ≤ 1 ∧
      1 ≤ (grade (QUESTIONS.get ⟨0, by decide⟩) "").2.length :=
  grade_score_bounds (QUESTIONS.get ⟨0, by decide⟩) (QUESTIONS.get_mem 0 (by decide)) ""

/-- C6.  For every question of the bank, an answer consisting only of
whitespace characters (the empty answer included) grades to score
0.0. -/
theorem grade_whitespace_zero :
    ∀ q ∈ QUESTIONS, ∀ ans : String,
      (∀ c ∈ ans.data, c.isWhitespace = true) → (grade q ans).1 = 0 := by
  intro q hq ans hws
  have hnorm := normalize_eq_empty hws
  have hlow : ∀ pat : String, pat.data.any (fun c => !c.isWhitespace) = true →
      pyIn pat (pyLower ans) = false := fun pat hpat =>
    pyIn_false_of_ws (pyLower_ws hws) hpat
  simp only [QUESTIONS, List.mem_cons, List.not_mem_nil, or_false] at hq
  rcases hq with rfl | rfl | rfl | rfl | rfl | rfl | rfl | rfl | rfl | rfl <;>
    · simp [grade_q1, grade_q2, grade_q3, grade_q4, grade_q5, grade_q6, grade_q7,
        grade_q8, grade_q9, grade_q10,
        check_sumifs, check_xlookup, check_countif, check_average, check_year,
        check_div0, check_sum_zero, check_pivot_steps, hnorm,
        hlow "zero" (by decide), hlow "divide" (by decide), hlow "blank" (by decide),
        hlow "empty" (by decide), hlow "text" (by decide), hlow "format" (by decide),
        hlow "formatted" (by decide), hlow "hidden" (by decide), hlow "space" (by decide),
        hlow "pivot" (by decide), hlow "chart" (by decide), hlow "rows" (by decide),
        hlow "columns" (by decide), hlow "values" (by decide), hlow "month" (by decide),
        hlow "sum" (by decide), hlow "line" (by decide), hlow "absolute" (by decide),
        hlow "relative" (by decide), hlow "$a$1" (by decide), hlow "a1" (by decide),
        hlow "xlookup" (by decide), hlow "vlookup" (by decide), hlow "index" (by decide),
        hlow "match" (by decide), hlow "both directions" (by decide),
        (by decide : pyIn "SUMIFS" "" = false), (by decide : pyIn "SUMIF" "" = false),
        (by decide : pyIn "XLOOKUP" "" = false), (by decide : pyIn "INDEX" "" = false),
        (by decide : pyIn "MATCH" "" = false), (by decide : pyIn "COUNTIF" "" = false),
        (by decide : pyIn "COUNTA" "" = false), (by decide : pyIn "AVERAGE" "" = false),
        (by decide : pyIn "AVERAGEIF" "" = false), (by decide : pyIn "YEAR(" "" = false)]
/-- Witness for C6 at the first question of the bank and a three-blank
answer. -/
theorem grade_whitespace_zero_witness :
    (grade (QUESTIONS.get ⟨0, by decide⟩) "   ").1 = 0 :=
  grade_whitespace_zero (QUESTIONS.get ⟨0, by decide⟩)
    (QUESTIONS.get_mem 0 (by decide)) "   " (by decide)

/-- C7.  Grading of the SUM-by-category question q1: any answer whose
whitespace-stripped uppercased form contains "SUMIFS" scores 1.0 with
a note mentioning SUMIFS; an answer containing "SUMIF" but not
"SUMIFS" scores 0.9; an answer containing neither scores 0.0; and the
two concrete probes of the spec behave as stated. -/
theorem check_sumifs_spec :
    (∀ ans : String, pyIn "SUMIFS" (normalize ans) = true →
      check_sumifs ans = (1, ["Uses SUMIFS"])) ∧
    (∀ ans : String, pyIn "SUMIFS" (normalize ans) = false →
      pyIn "SUMIF" (normalize ans) = true →
      check_sumifs ans = (9/10, ["Uses SUMIF (acceptable)"])) ∧
    (∀ ans : String, pyIn "SUMIF" (normalize ans) = false →
      check_sumifs ans = (0, ["SUMIF(S) not detected"])) ∧
    (∀ q : Question, q.id = "q1" → ∀ ans : String, grade q ans = check_sumifs ans) ∧
    check_sumifs "=SUMIFS(B:B, A:A, \"Sales\")" = (1, ["Uses SUMIFS"]) ∧
    pyIn "SUMIFS" (String.intercalate " "
      (check_sumifs "=SUMIFS(B:B, A:A, \"Sales\")").2) = true ∧
    (check_sumifs "=SUMIF(B:B,A:A,\"Sales\")").1 = 9/10 := by
  refine ⟨fun ans h => ?_, fun ans h1 h2 => ?_, fun ans h => ?_,
    fun q hq ans => ?_, ?_, ?_, ?_⟩
  · simp [check_sumifs, h]
  · simp [check_sumifs, h1, h2]
  · have hS : pyIn "SUMIFS" (normalize ans) = false := by
      rcases hcase : pyIn "SUMIFS" (normalize ans) with _ | _
      · rfl
      · rw [pyIn_eq_true_iff] at hcase
        have : pyIn "SUMIF" (normalize ans) = true :=
          pyIn_eq_true_iff.mpr ((by decide : ("SUMIF".data <:+: "SUMIFS".data)).trans hcase)
        rw [this] at h
        exact absurd h (by simp)
    simp [check_sumifs, hS, h]
  · unfold grade
    rw [if_pos hq]
  · simp [check_sumifs, (by decide : pyIn "SUMIFS" (normalize "=SUMIFS(B:B, A:A, \"Sales\")") = true)]
  · decide
  · simp [check_sumifs,
      (by decide : pyIn "SUMIFS" (normalize "=SUMIF(B:B,A:A,\"Sales\")") = false),
      (by decide : pyIn "SUMIF" (normalize "=SUMIF(B:B,A:A,\"Sales\")") = true)]

/-- Witness for C7 at concrete answers. -/
theorem check_sumifs_spec_witness :
    check_sumifs "sumifs" = (1, ["Uses SUMIFS"]) ∧
    check_sumifs "sumif only" = (9/10, ["Uses SUMIF (acceptable)"]) ∧
    check_sumifs "total" = (0, ["SUMIF(S) not detected"]) ∧
    grade ⟨"q1", "objective", "p", "e", 2⟩ "sumifs" = check_sumifs "sumifs" :=
  ⟨check_sumifs_spec.1 "sumifs" (by decide),
   check_sumifs_spec.2.1 "sumif only" (by decide) (by decide),
   check_sumifs_spec.2.2.1 "total" (by decide),
   check_sumifs_spec.2.2.2.1 ⟨"q1", "objective", "p", "e", 2⟩ rfl "sumifs"⟩

/-- C2, counterexample.  On a table whose column order is
["OrderDate", "ShipDate", "SalesTotal", "RevenueTotal"], two column
names contain "date" and two contain "sales"/"revenue"; the discovery
loop selects the LAST matching columns, not the first ones the claim
requires. -/
theorem findCols_counterexample :
    findCols ["OrderDate", "ShipDate", "SalesTotal", "RevenueTotal"] =
      (some "ShipDate", some "RevenueTotal") ∧
    (findCols ["OrderDate", "ShipDate", "SalesTotal", "RevenueTotal"]).1 ≠
      some "OrderDate" ∧
    (findCols ["OrderDate", "ShipDate", "SalesTotal", "RevenueTotal"]).2 ≠
      some "SalesTotal" := by
  refine ⟨by decide, by decide, by decide⟩

/-- The discovery loop computes, in each component, the first match
over the reversed column order (equivalently the last match in column
order). -/
lemma findCols_eq_find? (names : List String) :
    findCols names =
      (names.reverse.find? (fun c => pyIn "date" (pyLower (pyStrip c))),
       names.reverse.find? (fun c =>
         pyIn "sales" (pyLower (pyStrip c)) || pyIn "amount" (pyLower (pyStrip c)) ||
           pyIn "revenue" (pyLower (pyStrip c)))) := by
  induction names using List.reverseRecOn with
  | nil => rfl
  | append_singleton cs c ih =>
    unfold findCols at ih ⊢
    rw [List.foldl_append, List.foldl_cons, List.foldl_nil, ih, List.reverse_append]
    simp only [List.reverse_cons, List.reverse_nil, List.nil_append,
      List.singleton_append, List.find?]
    by_cases hd : pyIn "date" (pyLower (pyStrip c)) = true <;>
      by_cases hs : (pyIn "sales" (pyLower (pyStrip c)) ||
        pyIn "amount" (pyLower (pyStrip c)) ||
        pyIn "revenue" (pyLower (pyStrip c))) = true <;>
      simp [hd, hs]

/-- C2, amended.  The discovery loop keeps overwriting its candidates,
so the selected date (respectively sales) column is the LAST column in
order whose stripped lowercased name contains "date" (respectively
"sales", "amount" or "revenue") — the first match over the reversed
column order. -/
theorem findCols_last_match (names : List String) :
    findCols names =
      (names.reverse.find? (fun c => pyIn "date" (pyLower (pyStrip c))),
       names.reverse.find? (fun c =>
         pyIn "sales" (pyLower (pyStrip c)) || pyIn "amount" (pyLower (pyStrip c)) ||
           pyIn "revenue" (pyLower (pyStrip c)))) :=
  findCols_eq_find? names

/-- Restricting the weighted score sum to the questions with a
recorded grade does not change it: a question without a grade
contributes `0.0 * weight = 0`. -/
lemma score_sum_eq_answered (scores : List (String × Rat)) :
    ∀ L : List Question,
      (L.map (fun q => (scores.lookup q.id).getD 0 * (q.weight : Rat))).sum =
      ((L.filter (fun q => (scores.lookup q.id).isSome)).map
        (fun q => (scores.lookup q.id).getD 0 * (q.weight : Rat))).sum := by
  intro L
  induction L with
  | nil => rfl
  | cons q qs ih =>
    rcases hq : scores.lookup q.id with _ | v
    · simp [List.filter_cons, hq, ih]
    · simp [List.filter_cons, hq, ih]

/-- The session used in the counterexample and witness for C1: only q1
has been answered and graded, with score 1.0. -/
def sessionC1 : Session :=
  ⟨[("q1", "=SUMIFS(B:B, A:A, \"Sales\")")], [("q1", 1)], [("q1", ["Uses SUMIFS"])]⟩

/-- C1, counterexample.  In a session where only q1 (weight 2) was
answered, with score 1.0, the claim's restricted-sum formula gives
100 × (1×2)/2 = 100, but the program divides by the total weight of
ALL ten questions (23) and displays round(100 × 2/23, 1) = 8.7. -/
theorem overall_counterexample :
    sessionC1.responses ≠ [] ∧
    (sessionC1.scores.lookup "q1").isSome = true ∧
    specOverall sessionC1.scores = 100 ∧
    displayedOverall sessionC1 = 87/10 ∧
    displayedOverall sessionC1 ≠ specOverall sessionC1.scores := by
  have hf : (⌊(10 * (100 * ((2 : ℚ)/23)) : ℚ)⌋ : Int) = 86 := by
    rw [Int.floor_eq_iff]
    constructor
    · norm_num
    · norm_num
  have hspec : specOverall sessionC1.scores = 100 := by
    simp [specOverall, sessionC1, QUESTIONS, List.lookup]
  have hdisp : displayedOverall sessionC1 = 87/10 := by
    have h2 : overallOf sessionC1.scores = pyRound1 (100 * ((2 : ℚ)/23)) := by
      simp [sessionC1, overallOf, score_sum, total_weight, QUESTIONS, List.lookup]
    have h3 : pyRound1 (100 * ((2 : ℚ)/23)) = 87/10 := by
      unfold pyRound1 roundHalfEven
      rw [ratFloor_eq_intFloor, hf]
      norm_num
    unfold displayedOverall
    rw [if_neg (by simp [sessionC1]), h2, h3]
  exact ⟨by simp [sessionC1], by simp [sessionC1, List.lookup], hspec, hdisp,
    by rw [hspec, hdisp]; norm_num⟩

/-- C1, amended.  For every session with at least one recorded
response, the displayed and exported overall score equals
round₁(100 × (Σ score_i × weight_i) / (Σ weight_i)) where the
numerator ranges over the questions with a recorded grade but the
denominator is the total weight of ALL ten questions: an unanswered
question counts as score 0 with its weight still in the denominator,
instead of being excluded from both sums. -/
theorem overall_formula (s : Session) (h : s.responses ≠ []) :
    displayedOverall s =
      pyRound1 (100 *
        ((((QUESTIONS.filter (fun q => (s.scores.lookup q.id).isSome)).map
            (fun q => (s.scores.lookup q.id).getD 0 * (q.weight : Rat))).sum) /
          (total_weight : Rat))) := by
  have hne : s.responses.isEmpty = false := by
    rcases hr : s.responses with _ | _
    · exact absurd hr h
    · rfl
  unfold displayedOverall overallOf
  rw [hne, if_neg (by simp), if_pos (by decide : total_weight ≠ 0)]
  rw [score_sum, score_sum_eq_answered]

/-- Witness for C1 (amended) at the concrete one-answer session. -/
theorem overall_formula_witness :
    displayedOverall sessionC1 =
      pyRound1 (100 *
        ((((QUESTIONS.filter (fun q => (sessionC1.scores.lookup q.id).isSome)).map
            (fun q => (sessionC1.scores.lookup q.id).getD 0 * (q.weight : Rat))).sum) /
          (total_weight : Rat))) :=
  overall_formula sessionC1 (by simp [sessionC1])

/-- When no column name contains "date", the discovery loop finds no
date column. -/
lemma findCols_fst_none {names : List String}
    (h : names.all (fun c => !(pyIn "date" (pyLower (pyStrip c)))) = true) :
    (findCols names).1 = none := by
  rw [findCols_eq_find?]
  simp only []
  rw [List.find?_eq_none]
  intro x hx
  have hb := List.all_eq_true.mp h x (List.mem_reverse.mp hx)
  simp only [Bool.not_eq_true'] at hb
  simp [hb]

/-- When no column name contains "sales", "amount" or "revenue", the
discovery loop finds no sales column. -/
lemma findCols_snd_none {names : List String}
    (h : names.all (fun c => !(pyIn "sales" (pyLower (pyStrip c)) ||
        pyIn "amount" (pyLower (pyStrip c)) ||
        pyIn "revenue" (pyLower (pyStrip c)))) = true) :
    (findCols names).2 = none := by
  rw [findCols_eq_find?]
  simp only []
  rw [List.find?_eq_none]
  intro x hx
  have hb := List.all_eq_true.mp h x (List.mem_reverse.mp hx)
  simp only [Bool.not_eq_true'] at hb
  simp [hb]

/-- When either discovered column is missing, the validator returns
the Missing-columns triple. -/
lemma pivot_missing (df : DataFrame)
    (h : (findCols (df.cols.map (fun p => p.1))).1 = none ∨
         (findCols (df.cols.map (fun p => p.1))).2 = none) :
    pivot_validate_dataframe df =
      (false,
        "Missing columns: date_col=" ++
            optName (findCols (df.cols.map (fun p => p.1))).1 ++
          ", sales_col=" ++ optName (findCols (df.cols.map (fun p => p.1))).2,
        none) := by
  unfold pivot_validate_dataframe pivot_body
  rcases hf : findCols (df.cols.map (fun p => p.1)) with ⟨f1, f2⟩
  rw [hf] at h
  rcases f1 with _ | d
  · simp [hf, pure, Except.pure]
  · rcases f2 with _ | sl
    · simp [hf, pure, Except.pure]
    · simp at h

/-- C5.  Whenever no column name contains "date", or none contains
"sales"/"amount"/"revenue", the validator reports ok = false with no
aggregate, and the note names the missing column by rendering it as
None (`date_col=None`, respectively `sales_col=None`). -/
theorem pivot_missing_columns (df : DataFrame)
    (h : ((df.cols.map (fun p => p.1)).all
            (fun c => !(pyIn "date" (pyLower (pyStrip c)))) = true) ∨
         ((df.cols.map (fun p => p.1)).all
            (fun c => !(pyIn "sales" (pyLower (pyStrip c)) ||
                        pyIn "amount" (pyLower (pyStrip c)) ||
                        pyIn "revenue" (pyLower (pyStrip c)))) = true)) :
    (pivot_validate_dataframe df).1 = false ∧
    (pivot_validate_dataframe df).2.2 = none ∧
    (((df.cols.map (fun p => p.1)).all
        (fun c => !(pyIn "date" (pyLower (pyStrip c)))) = true) →
      pyIn "date_col=None" (pivot_validate_dataframe df).2.1 = true) ∧
    (((df.cols.map (fun p => p.1)).all
        (fun c => !(pyIn "sales" (pyLower (pyStrip c)) ||
                    pyIn "amount" (pyLower (pyStrip c)) ||
                    pyIn "revenue" (pyLower (pyStrip c)))) = true) →
      pyIn "sales_col=None" (pivot_validate_dataframe df).2.1 = true) := by
  have key := pivot_missing df (h.imp findCols_fst_none findCols_snd_none)
  refine ⟨by rw [key], by rw [key], fun h1 => ?_, fun h2 => ?_⟩
  · rw [key]
    simp only [findCols_fst_none h1, optName]
    exact pyIn_append_left (pyIn_append_left (by decide) _) _
  · rw [key]
    simp only [findCols_snd_none h2, optName]
    rw [String.append_assoc]
    exact pyIn_append_right (by decide) _

/-- The dataframe used in the witness for C5: no column name contains
"date". -/
def dfNoDate : DataFrame :=
  ⟨[("Region", [Cell.str "North"]), ("SalesAmount", [Cell.num 7])]⟩

/-- Witness for C5 at a concrete dataframe lacking a date column. -/
theorem pivot_missing_columns_witness :
    (pivot_validate_dataframe dfNoDate).1 = false ∧
    (pivot_validate_dataframe dfNoDate).2.2 = none ∧
    pyIn "date_col=None" (pivot_validate_dataframe dfNoDate).2.1 = true := by
  have h := pivot_missing_columns dfNoDate (Or.inl (by decide))
  exact ⟨h.1, h.2.1, h.2.2.1 (by decide)⟩

/-- C3.  The validator is total — on every dataframe it returns an
(ok, note, aggregate) triple — and whenever the embedded body of its
`try:` block raises, the exception is caught and converted to
ok = false with the exception text contained in the note and no
aggregate. -/
theorem pivot_validate_total_and_catches (df : DataFrame) :
    (∃ ok note agg, pivot_validate_dataframe df = (ok, note, agg)) ∧
    (∀ e : String, pivot_body df = Except.error e →
      pivot_validate_dataframe df = (false, "Pivot validation error: " ++ e, none) ∧
      pyIn e (pivot_validate_dataframe df).2.1 = true ∧
      (pivot_validate_dataframe df).2.2 = none) := by
  constructor
  · exact ⟨(pivot_validate_dataframe df).1, (pivot_validate_dataframe df).2.1,
      (pivot_validate_dataframe df).2.2, rfl⟩
  · intro e he
    have hval : pivot_validate_dataframe df =
        (false, "Pivot validation error: " ++ e, none) := by
      unfold pivot_validate_dataframe
      rw [he]
    exact ⟨hval, by rw [hval]; exact pyIn_append_right (by simp [pyIn]) _, by rw [hval]⟩

/-- The dataframe used in the witness for C3: the column name "date"
is duplicated, so the column selection feeds `pd.to_datetime` a
two-column dataframe and it raises inside the `try:` block. -/
def dfDupDate : DataFrame :=
  ⟨[("date", [Cell.date 2024 1 5]), ("date", [Cell.num 3]), ("sales", [Cell.num 7])]⟩

/-- Witness for C3 at a concrete dataframe on which the body raises. -/
theorem pivot_validate_total_and_catches_witness :
    pivot_validate_dataframe dfDupDate =
      (false,
        "Pivot validation error: " ++ "cannot coerce a DataFrame of duplicated column date",
        none) ∧
    pyIn "cannot coerce a DataFrame of duplicated column date"
      (pivot_validate_dataframe dfDupDate).2.1 = true := by
  have h := (pivot_validate_total_and_catches dfDupDate).2
    "cannot coerce a DataFrame of duplicated column date" rfl
  exact ⟨h.1, h.2.1⟩

/-- The weaknesses component of the report loop collects exactly the
responded questions with score ≤ 0.4, in bank order, each paired with
its feedback. -/
lemma report_lists_weaknesses (s : Session) :
    ∀ L : List Question,
      (report_lists s L).2.1 =
        (L.filter (fun r => (s.responses.lookup r.id).isSome &&
            decide ((s.scores.lookup r.id).getD 0 ≤ 0.4))).map
          (fun r => (r.prompt, feedback_from_notes r.id ((s.notes.lookup r.id).getD []))) := by
  intro L
  induction L with
  | nil => rfl
  | cons q qs ih =>
    by_cases h1 : (s.responses.lookup q.id).isSome = true
    · by_cases h2 : (s.scores.lookup q.id).getD 0 ≤ 0.4
      · simp [report_lists, List.filter_cons, h1, h2, ih]
      · simp [report_lists, List.filter_cons, h1, h2, ih]
    · simp [report_lists, List.filter_cons, h1, ih]

/-- The review-queue component of the report loop collects exactly the
responded questions with score < 0.4, in bank order, each carrying the
full answer and notes. -/
lemma report_lists_review (s : Session) :
    ∀ L : List Question,
      (report_lists s L).2.2 =
        (L.filter (fun r => (s.responses.lookup r.id).isSome &&
            decide ((s.scores.lookup r.id).getD 0 < 0.4))).map
          (fun r => ReviewEntry.mk r.prompt ((s.responses.lookup r.id).getD "")
            ((s.notes.lookup r.id).getD [])) := by
  intro L
  induction L with
  | nil => rfl
  | cons q qs ih =>
    by_cases h1 : (s.responses.lookup q.id).isSome = true
    · by_cases h2 : (s.scores.lookup q.id).getD 0 < 0.4
      · simp [report_lists, List.filter_cons, h1, h2, ih]
      · simp [report_lists, List.filter_cons, h1, h2, ih]
    · simp [report_lists, List.filter_cons, h1, ih]

/-- C9.  The weaknesses list is exactly the responded questions with
score ≤ 0.4 paired with feedback, the review queue exactly those with
score < 0.4 carrying answer and notes, and a question graded exactly
0.4 falls in the weaknesses list but not in the review queue. -/
theorem weaknesses_review_boundary (s : Session) :
    weaknesses s =
      (QUESTIONS.filter (fun r => (s.responses.lookup r.id).isSome &&
          decide ((s.scores.lookup r.id).getD 0 ≤ 0.4))).map
        (fun r => (r.prompt, feedback_from_notes r.id ((s.notes.lookup r.id).getD []))) ∧
    review_queue s =
      (QUESTIONS.filter (fun r => (s.responses.lookup r.id).isSome &&
          decide ((s.scores.lookup r.id).getD 0 < 0.4))).map
        (fun r => ReviewEntry.mk r.prompt ((s.responses.lookup r.id).getD "")
          ((s.notes.lookup r.id).getD [])) ∧
    ∀ q ∈ QUESTIONS, (s.responses.lookup q.id).isSome = true →
      (s.scores.lookup q.id).getD 0 = 0.4 →
      q ∈ QUESTIONS.filter (fun r => (s.responses.lookup r.id).isSome &&
          decide ((s.scores.lookup r.id).getD 0 ≤ 0.4)) ∧
      q ∉ QUESTIONS.filter (fun r => (s.responses.lookup r.id).isSome &&
          decide ((s.scores.lookup r.id).getD 0 < 0.4)) := by
  refine ⟨report_lists_weaknesses s QUESTIONS, report_lists_review s QUESTIONS,
    fun q hq hresp hscore => ⟨?_, ?_⟩⟩
  · rw [List.mem_filter]
    exact ⟨hq, by simp [hresp, hscore]⟩
  · rw [List.mem_filter]
    rintro ⟨-, hb⟩
    simp [hresp, hscore] at hb

/-- The session used in the witness for C9: q6 responded, graded
exactly 0.4. -/
def sessionC9 : Session :=
  ⟨[("q6", "zero")], [("q6", 0.4)], [("q6", ["matched 1 causes"])]⟩

/-- Witness for C9: in `sessionC9` the exactly-0.4 question q6 passes
the weaknesses filter and fails the review-queue filter. -/
theorem weaknesses_review_boundary_witness :
    QUESTIONS.get ⟨5, by decide⟩ ∈
      QUESTIONS.filter (fun r => (sessionC9.responses.lookup r.id).isSome &&
        decide ((sessionC9.scores.lookup r.id).getD 0 ≤ 0.4)) ∧
    QUESTIONS.get ⟨5, by decide⟩ ∉
      QUESTIONS.filter (fun r => (sessionC9.responses.lookup r.id).isSome &&
        decide ((sessionC9.scores.lookup r.id).getD 0 < 0.4)) :=
  (weaknesses_review_boundary sessionC9).2.2 (QUESTIONS.get ⟨5, by decide⟩)
    (QUESTIONS.get_mem 5 (by decide)) (by decide) rfl

/-- A score is below 0.4 exactly when the classifier labels it Low. -/
lemma confidence_low_iff (x : Rat) : x < 0.4 ↔ confidence_label x = "Low" := by
  unfold confidence_label
  rcases lt_or_le x 0.4 with h | h
  · rw [if_neg (fun hc => absurd (lt_of_lt_of_le (by norm_num) hc) (not_lt.mpr h.le)),
      if_neg (not_le.mpr h)]
    exact iff_of_true h rfl
  · rcases le_or_lt 0.8 x with h8 | h8
    · rw [if_pos h8]
      exact iff_of_false (not_lt.mpr h) (by decide)
    · rw [if_neg (not_le.mpr h8), if_pos h]
      exact iff_of_false (not_lt.mpr h) (by decide)

/-- Boolean form of `confidence_low_iff`. -/
lemma decide_lt_eq_low (x : Rat) :
    decide (x < 0.4) = (confidence_label x == "Low") := by
  by_cases h : x < 0.4
  · simp [h, (confidence_low_iff x).mp h]
  · have hlab : confidence_label x ≠ "Low" := fun hc => h ((confidence_low_iff x).mpr hc)
    simp [h, hlab]

/-- C10.  A score is strictly below 0.4 exactly when the confidence
classifier returns Low, and consequently the review queue of every
report is exactly the responded questions whose confidence
classification is Low. -/
theorem review_queue_is_low_confidence :
    (∀ score : Rat, score < 0.4 ↔ confidence_label score = "Low") ∧
    ∀ s : Session, review_queue s =
      (QUESTIONS.filter (fun r => (s.responses.lookup r.id).isSome &&
          (confidence_label ((s.scores.lookup r.id).getD 0) == "Low"))).map
        (fun r => ReviewEntry.mk r.prompt ((s.responses.lookup r.id).getD "")
          ((s.notes.lookup r.id).getD [])) := by
  refine ⟨confidence_low_iff, fun s => ?_⟩
  unfold review_queue
  rw [report_lists_review s QUESTIONS,
    List.filter_congr (fun r _ => by rw [decide_lt_eq_low] :
      ∀ r ∈ QUESTIONS, ((s.responses.lookup r.id).isSome &&
        decide ((s.scores.lookup r.id).getD 0 < 0.4)) =
        ((s.responses.lookup r.id).isSome &&
          (confidence_label ((s.scores.lookup r.id).getD 0) == "Low")))]

end ExcelInterviewer
